import Mathlib

/-!
Shallow embedding of `src/watch_url.py` (dblume/watch-url).

The program watches URLs for changes: it takes a baseline fetch, then polls,
comparing the `ETag` and `Last-Modified` response headers and an MD5 digest of
the body against the stored validators, notifying through an external command
when a change is detected.

External collaborators are modelled as inputs:

* the network: each fetch attempt is a `FetchResult` supplied to the step
  functions.  `urllib.request.urlopen` either returns a response object
  (`FetchResult.success`, carrying `getcode()`, the headers and the body),
  raises `urllib.error.HTTPError` for an HTTP error status
  (`FetchResult.httpError`, e.g. 304, 404, 500), or raises a transport-level
  error such as `URLError` / `socket.timeout` for DNS, connection or timeout
  failures (`FetchResult.transportError`);
* `hashlib.md5`: the development is parameterised by `hexdigest`, the hex
  digest of the byte sequence accumulated by successive `hasher.update`
  calls; `get_md5` reproduces the chunked read loop of the source;
* `subprocess.run`: modelled by the observable outcome `ProcResult`
  (return code and captured standard output).

Python values are mapped as follows: `Optional[str]` becomes `Option String`,
byte strings become `List Nat`, header lookup `f.headers[h]` (which returns
`None` when the header is absent) becomes an `Option String` field.  Header
comparison in the source is plain `!=` on the looked-up value, i.e. exact
string comparison, with a present string never equal to `None`.
-/

namespace WatchUrl

/-- Model of Python `str.replace(pat, rep)` on character lists, fuel-indexed so
that the recursion is structural (the fuel is the length of the scanned list;
each step consumes at least one character when the pattern is non-empty, as it
is at every call site, so the fuel never runs out).  Matches are replaced left
to right, non-overlapping, and scanning resumes after the replacement text,
exactly as in CPython. -/
def replaceFromAux (pat rep : List Char) : Nat → List Char → List Char
  | _, [] => []
  | 0, s => s
  | fuel+1, c :: rest =>
    if pat ≠ [] ∧ pat.isPrefixOf (c :: rest) then
      rep ++ replaceFromAux pat rep fuel ((c :: rest).drop pat.length)
    else
      c :: replaceFromAux pat rep fuel rest

/-- Model of Python `s.replace(pat, rep)` for the non-empty patterns used by
`notify` (`"MSG"` and `"URL"`). -/
def pyReplace (s pat rep : String) : String :=
  String.mk (replaceFromAux pat.data rep.data s.data.length s.data)

/-- Observable outcome of `subprocess.run`: the external process's return code
and captured standard output (source lines 47-48). -/
structure ProcResult where
  returncode : Int
  stdout : String
deriving DecidableEq

/-- Rendering of the command list into the log / error strings.  CPython
renders the Python list repr here; the exact rendering is irrelevant to every
claim, only that the synthetic error string is returned. -/
def cmdListRepr (l : List String) : String :=
  "[" ++ String.intercalate ", " l ++ "]"

/-- Result of `run`: the returned string and the log lines emitted. -/
structure RunOut where
  output : String
  logs : List String
deriving DecidableEq

/-- Embedding of `run(command_list)` (source lines 45-53): logs the return
code, and on a non-zero return code logs an error and returns a synthetic
error string instead of the captured stdout.  The function is total: no
exception path exists. -/
def run (command_list : List String) (r : ProcResult) : RunOut :=
  let dbg := "subprocess.run(" ++ cmdListRepr command_list ++ ") got "
               ++ toString r.returncode ++ "."
  if r.returncode ≠ 0 then
    { output := "Error " ++ toString r.returncode ++ " trying to run("
                  ++ cmdListRepr command_list ++ ")",
      logs := [dbg, "subprocess.run(" ++ cmdListRepr command_list
                      ++ ") failed with code " ++ toString r.returncode ++ "."] }
  else
    { output := r.stdout, logs := [dbg] }

/-- The argument vector built by `notify` (source line 42): each token of the
loaded command template has every occurrence of `MSG` replaced by the message,
then every occurrence of `URL` replaced by the url. -/
def notifyArgv (notification : List String) (msg url : String) : List String :=
  notification.map (fun i => pyReplace (pyReplace i "MSG" msg) "URL" url)

/-- Embedding of `notify(msg, url)` (source lines 39-42).  The
`notify_lock` serialisation is a concurrency property outside this
response-driven embedding. -/
def notify (notification : List String) (msg url : String) (r : ProcResult) : RunOut :=
  run (notifyArgv notification msg url) r

/-- The byte sequence accumulated by the `hasher.update` loop of `get_md5`
(source lines 30-36), fuel-indexed for structural recursion: `f.read(bs)`
yields `take bs`, the loop continues on `drop bs` while the read is non-empty.
The fuel is the stream length; each iteration consumes at least one byte when
`bs > 0`, so the fuel never runs out at the call site (`bs = 65536`). -/
def hasherFeedAux (bs : Nat) : Nat → List Nat → List Nat
  | _, [] => []
  | 0, s => s
  | fuel+1, x :: rest =>
    (x :: rest).take bs ++ hasherFeedAux bs fuel ((x :: rest).drop bs)

/-- The bytes fed to the hasher by `get_md5`'s read loop.  When `bs = 0`,
`f.read(0)` returns an empty byte string and the loop body never runs. -/
def hasherFeed (bs : Nat) (stream : List Nat) : List Nat :=
  if bs = 0 then [] else hasherFeedAux bs stream.length stream

/-- Embedding of `get_md5(f)` (source lines 28-36): the stream is read in
64 KiB chunks, each chunk fed to the hasher; the result is the hex digest of
the accumulated bytes.  `hexdigest` abstracts `hashlib.md5(...).hexdigest()`
as a function of the full accumulated byte sequence. -/
def get_md5 (hexdigest : List Nat → String) (stream : List Nat) : String :=
  hexdigest (hasherFeed 65536 stream)

/-- The two optional caching headers of a response (`f.headers` lookups of
`ETag` and `Last-Modified`; `none` models an absent header, for which the
Python lookup returns `None`). -/
structure Headers where
  etag : Option String
  lastModified : Option String
deriving DecidableEq

/-- One fetch attempt's outcome as delivered by `urllib.request.urlopen`:
a returned response object, a raised `HTTPError` carrying a status code, or a
raised transport-level error (`URLError`, DNS failure, timeout). -/
inductive FetchResult where
  | success (code : Nat) (headers : Headers) (body : List Nat)
  | httpError (code : Nat)
  | transportError
deriving DecidableEq

/-- The mutable per-URL state of `watch`: the `etag`, `last_modified` and
`md5` local variables (source lines 65-75). -/
structure WState where
  etag : Option String
  last_modified : Option String
  md5 : String
deriving DecidableEq

/-- The check `h in f.headers and f.headers[h] != stored` of source lines
94-98, for one header: `observed` is the response-side lookup, `stored` the
recorded prior value.  A present header differing from the stored optional
value (including a stored `None`) signals a change; an absent header never
does. -/
def headerDiffers (stored observed : Option String) : Bool :=
  match observed with
  | none => false
  | some v => if stored = some v then false else true

/-- Everything observable about one execution of the polling loop body's
fetch handling (source lines 87-111): the state afterwards, whether `done`
was set, the notifications `(msg, url)` and log lines emitted, whether the
digest fallback was evaluated (the short-circuit `not changed and
md5 != get_md5(f)` of line 99), whether the body was read, and whether an
exception escaped the `except HTTPError` clause. -/
structure StepResult where
  state : WState
  done : Bool
  notifications : List (String × String)
  logs : List String
  digestConsulted : Bool
  bodyRead : Bool
  uncaught : Bool
deriving DecidableEq

/-- Embedding of one iteration's fetch handling in the polling loop of
`watch` (source lines 87-111).  On a returned response with a non-200 code it
logs and continues; on a 200 it applies the ETag / Last-Modified / digest
comparison of lines 93-105 and unconditionally re-reads `last_modified` from
the response (line 105, `None` when absent); a raised `HTTPError` of 304 is
logged as unchanged, any other raised `HTTPError` notifies and continues; a
transport-level error matches no `except` clause and escapes. -/
def pollStep (hexdigest : List Nat → String) (st : WState) (url : String) :
    FetchResult → StepResult
  | .success code hdrs body =>
    if code ≠ 200 then
      { state := st, done := false, notifications := [],
        logs := ["Got " ++ toString code ++ " for " ++ url ++ ". Continuing."],
        digestConsulted := false, bodyRead := false, uncaught := false }
    else
      let headerChanged := headerDiffers st.etag hdrs.etag
                             || headerDiffers st.last_modified hdrs.lastModified
      let changed := headerChanged
                       || (if st.md5 = get_md5 hexdigest body then false else true)
      { state := { etag := st.etag, last_modified := hdrs.lastModified,
                   md5 := st.md5 },
        done := changed,
        notifications := if changed then [("Site changed", url)] else [],
        logs := if changed
                then ["Sending notification of change to " ++ url ++ "."]
                else [],
        digestConsulted := !headerChanged,
        bodyRead := !headerChanged,
        uncaught := false }
  | .httpError code =>
    if code = 304 then
      { state := st, done := false, notifications := [],
        logs := [url ++ " not changed."],
        digestConsulted := false, bodyRead := false, uncaught := false }
    else
      { state := st, done := false,
        notifications := [("Got HTTP error " ++ toString code ++ ". Continuing.", url)],
        logs := ["Got " ++ toString code ++ " for " ++ url ++ ". Continuing."],
        digestConsulted := false, bodyRead := false, uncaught := false }
  | .transportError =>
    { state := st, done := false, notifications := [], logs := [],
      digestConsulted := false, bodyRead := false, uncaught := true }

/-- How a run of the polling loop ended: normal exit with `done = True`, an
uncaught exception, or the supplied response script ran out while the loop
was still polling (the real loop would keep polling). -/
inductive EndKind where
  | baselineAbort
  | changedExit
  | crashed
  | scriptExhausted
deriving DecidableEq

/-- Observable outcome of running the polling loop over a finite script of
fetch outcomes. -/
structure RunResult where
  state : WState
  notifications : List (String × String)
  logs : List String
  fetches : Nat
  endKind : EndKind
deriving DecidableEq

/-- The polling loop (`while not done`, source lines 81-111) driven by a
finite script of fetch outcomes: each iteration performs one fetch and
handles it with `pollStep`; the loop stops when `done` is set, when an
exception escapes, or when the script is exhausted.  The one-shot
time-triggered "Watching" liveness notification of lines 83-86 is
time-driven, independent of fetch outcomes, and outside this response-driven
model. -/
def runPolling (hexdigest : List Nat → String) (url : String) :
    WState → List FetchResult → RunResult
  | st, [] =>
    { state := st, notifications := [], logs := [], fetches := 0,
      endKind := .scriptExhausted }
  | st, r :: rest =>
    let s := pollStep hexdigest st url r
    if s.uncaught then
      { state := s.state, notifications := s.notifications, logs := s.logs,
        fetches := 1, endKind := .crashed }
    else if s.done then
      { state := s.state, notifications := s.notifications, logs := s.logs,
        fetches := 1, endKind := .changedExit }
    else
      let t := runPolling hexdigest url s.state rest
      { state := t.state, notifications := s.notifications ++ t.notifications,
        logs := s.logs ++ t.logs, fetches := t.fetches + 1,
        endKind := t.endKind }

/-- Outcome of the baseline handling of a returned response object. -/
inductive BaselineResult where
  | abort (notifications : List (String × String)) (logs : List String)
  | proceed (st : WState)
deriving DecidableEq

/-- Embedding of the baseline handling of a returned response object (source
lines 60-75): a non-200 `getcode()` logs, notifies "Exiting." and returns;
a 200 captures `ETag` and `Last-Modified` when present and unconditionally
digests the body. -/
def baseline (hexdigest : List Nat → String) (url : String) (code : Nat)
    (hdrs : Headers) (body : List Nat) : BaselineResult :=
  if code ≠ 200 then
    .abort [("Got HTTP " ++ toString code ++ ". Exiting.", url)]
           ["Got " ++ toString code ++ " for " ++ url ++ ". Exiting."]
  else
    .proceed { etag := hdrs.etag, last_modified := hdrs.lastModified,
               md5 := get_md5 hexdigest body }

/-- Observable outcome of a whole `watch(url, delay)` call. -/
structure WatchResult where
  notifications : List (String × String)
  logs : List String
  pollFetches : Nat
  endKind : EndKind
  finalState : Option WState
deriving DecidableEq

/-- Embedding of `watch(url, delay)` (source lines 56-113) driven by the
baseline fetch's outcome and a script of polling fetch outcomes.  The
baseline `urlopen` (line 60) is wrapped in no `try`, so a raised `HTTPError`
(how `urllib` delivers an error status such as 500) or transport error
escapes `watch` before any logging, notification or polling; only a
*returned* response object reaches the `getcode()` check of line 61.  On a
normal loop exit the final "Stopping for {url}." line (113) is logged. -/
def watch (hexdigest : List Nat → String) (url : String)
    (baseRes : FetchResult) (script : List FetchResult) : WatchResult :=
  match baseRes with
  | .success code hdrs body =>
    match baseline hexdigest url code hdrs body with
    | .abort notifs lgs =>
      { notifications := notifs, logs := lgs, pollFetches := 0,
        endKind := .baselineAbort, finalState := none }
    | .proceed st =>
      let t := runPolling hexdigest url st script
      { notifications := t.notifications,
        logs := t.logs ++ (if t.endKind = .changedExit
                           then ["Stopping for " ++ url ++ "."] else []),
        pollFetches := t.fetches, endKind := t.endKind,
        finalState := some t.state }
  | .httpError _ =>
    { notifications := [], logs := [], pollFetches := 0, endKind := .crashed,
      finalState := none }
  | .transportError =>
    { notifications := [], logs := [], pollFetches := 0, endKind := .crashed,
      finalState := none }

/-- A concrete, executable stand-in for `hashlib.md5`'s hex digest, used only
to instantiate witnesses and counterexamples at closed inputs; every general
theorem is proved for an arbitrary digest function. -/
def sampleDigest (l : List Nat) : String :=
  toString l.length

/-! Helper lemmas. -/

/-- With enough fuel the chunked read loop feeds the whole stream. -/
lemma hasherFeedAux_self (bs : Nat) (hbs : 0 < bs) :
    ∀ (fuel : Nat) (s : List Nat), s.length ≤ fuel → hasherFeedAux bs fuel s = s := by
  intro fuel
  induction fuel with
  | zero =>
    intro s hs
    have h0 : s = [] := List.length_eq_zero.mp (Nat.le_zero.mp hs)
    subst h0
    rfl
  | succ n ih =>
    intro s hs
    cases s with
    | nil => rfl
    | cons x rest =>
      rw [hasherFeedAux]
      have hlen : ((x :: rest).drop bs).length ≤ n := by
        rw [List.length_drop]
        calc (x :: rest).length - bs ≤ (n + 1) - bs := Nat.sub_le_sub_right hs bs
          _ ≤ (n + 1) - 1 := Nat.sub_le_sub_left hbs (n + 1)
          _ = n := Nat.succ_sub_one n
      rw [ih _ hlen, List.take_append_drop]

/-- The digest is computed over the full body: the chunked read loop of
`get_md5` accumulates exactly the whole stream. -/
lemma get_md5_eq (hexdigest : List Nat → String) (s : List Nat) :
    get_md5 hexdigest s = hexdigest s := by
  unfold get_md5 hasherFeed
  rw [if_neg (by decide : ¬ (65536 = 0)),
    hasherFeedAux_self 65536 (by decide) s.length s (Nat.le_refl _)]

/-- An absent header, or a present header equal to the stored value, does not
signal a change. -/
lemma headerDiffers_eq_false {stored observed : Option String}
    (h : observed = none ∨ observed = stored) : headerDiffers stored observed = false := by
  rcases h with h | h
  · rw [h]; rfl
  · rw [h]
    cases stored with
    | none => rfl
    | some v => simp [headerDiffers]

/-- A present header differing from the stored optional value signals a
change. -/
lemma headerDiffers_eq_true {stored : Option String} {v : String}
    (h : stored ≠ some v) : headerDiffers stored (some v) = true := by
  simp [headerDiffers, h]

/-- Unfolding of the polling loop when the first step sets `done` and raises
nothing. -/
lemma runPolling_cons_done (hexdigest : List Nat → String) (url : String)
    (st : WState) (r : FetchResult) (rest : List FetchResult)
    (h1 : (pollStep hexdigest st url r).uncaught = false)
    (h2 : (pollStep hexdigest st url r).done = true) :
    runPolling hexdigest url st (r :: rest) =
      { state := (pollStep hexdigest st url r).state,
        notifications := (pollStep hexdigest st url r).notifications,
        logs := (pollStep hexdigest st url r).logs,
        fetches := 1, endKind := .changedExit } := by
  rw [runPolling]
  simp only [h1, h2]
  rfl

/-- Unfolding of the polling loop when the first step neither sets `done` nor
raises: the loop continues on the updated state. -/
lemma runPolling_cons_continue (hexdigest : List Nat → String) (url : String)
    (st : WState) (r : FetchResult) (rest : List FetchResult)
    (h1 : (pollStep hexdigest st url r).uncaught = false)
    (h2 : (pollStep hexdigest st url r).done = false) :
    runPolling hexdigest url st (r :: rest) =
      { state := (runPolling hexdigest url (pollStep hexdigest st url r).state rest).state,
        notifications := (pollStep hexdigest st url r).notifications
          ++ (runPolling hexdigest url (pollStep hexdigest st url r).state rest).notifications,
        logs := (pollStep hexdigest st url r).logs
          ++ (runPolling hexdigest url (pollStep hexdigest st url r).state rest).logs,
        fetches := (runPolling hexdigest url (pollStep hexdigest st url r).state rest).fetches + 1,
        endKind := (runPolling hexdigest url (pollStep hexdigest st url r).state rest).endKind } := by
  rw [runPolling]
  simp only [h1, h2]
  rfl

/-- Unfolding of the polling loop when the first step's exception escapes. -/
lemma runPolling_cons_crashed (hexdigest : List Nat → String) (url : String)
    (st : WState) (r : FetchResult) (rest : List FetchResult)
    (h1 : (pollStep hexdigest st url r).uncaught = true) :
    runPolling hexdigest url st (r :: rest) =
      { state := (pollStep hexdigest st url r).state,
        notifications := (pollStep hexdigest st url r).notifications,
        logs := (pollStep hexdigest st url r).logs,
        fetches := 1, endKind := .crashed } := by
  rw [runPolling]
  simp only [h1]
  rfl

/-- Explicit form of `pollStep` on a returned 200 response (source lines
93-105). -/
lemma pollStep_success_200 (hexdigest : List Nat → String) (st : WState)
    (url : String) (hdrs : Headers) (body : List Nat) :
    pollStep hexdigest st url (.success 200 hdrs body) =
      { state := WState.mk st.etag hdrs.lastModified st.md5,
        done := (headerDiffers st.etag hdrs.etag
                   || headerDiffers st.last_modified hdrs.lastModified)
                 || (if st.md5 = get_md5 hexdigest body then false else true),
        notifications :=
          if (headerDiffers st.etag hdrs.etag
                || headerDiffers st.last_modified hdrs.lastModified)
              || (if st.md5 = get_md5 hexdigest body then false else true)
          then [("Site changed", url)] else [],
        logs :=
          if (headerDiffers st.etag hdrs.etag
                || headerDiffers st.last_modified hdrs.lastModified)
              || (if st.md5 = get_md5 hexdigest body then false else true)
          then ["Sending notification of change to " ++ url ++ "."] else [],
        digestConsulted := !(headerDiffers st.etag hdrs.etag
                               || headerDiffers st.last_modified hdrs.lastModified),
        bodyRead := !(headerDiffers st.etag hdrs.etag
                        || headerDiffers st.last_modified hdrs.lastModified),
        uncaught := false } := rfl

/-- Replacing the whole token by the pattern substitutes the message
verbatim. -/
lemma pyReplace_whole_token (m : String) : pyReplace "MSG" "MSG" m = m := by
  have h : pyReplace "MSG" "MSG" m = String.mk (m.data ++ []) := rfl
  rw [h, List.append_nil]

/-! Claims. -/

/-- C1: on a polling fetch returning HTTP 200 whose response carries an ETag
header differing (exact string comparison) from the stored prior ETag, the
outcome is Changed — `done` is set and a "Site changed" notification is sent —
and the body-digest fallback is not consulted for that decision. -/
theorem C1_etag_diff_is_changed (hexdigest : List Nat → String) (st : WState)
    (url : String) (hdrs : Headers) (body : List Nat) (e : String)
    (hpres : hdrs.etag = some e) (hdiff : st.etag ≠ some e) :
    (pollStep hexdigest st url (.success 200 hdrs body)).done = true ∧
    (pollStep hexdigest st url (.success 200 hdrs body)).digestConsulted = false ∧
    (pollStep hexdigest st url (.success 200 hdrs body)).notifications
      = [("Site changed", url)] := by
  have he : headerDiffers st.etag hdrs.etag = true := by
    rw [hpres]; exact headerDiffers_eq_true hdiff
  rw [pollStep_success_200]
  simp [he]

/-- Witness for C1 at a concrete input: prior ETag `"a0"`, response ETag
`"a1"`. -/
theorem C1_etag_diff_is_changed_witness :
    (Headers.mk (some "a1") none).etag = some "a1" ∧
    (WState.mk (some "a0") none "0").etag ≠ some "a1" ∧
    ((pollStep sampleDigest (WState.mk (some "a0") none "0") "u"
        (.success 200 (Headers.mk (some "a1") none) [])).done = true ∧
     (pollStep sampleDigest (WState.mk (some "a0") none "0") "u"
        (.success 200 (Headers.mk (some "a1") none) [])).digestConsulted = false ∧
     (pollStep sampleDigest (WState.mk (some "a0") none "0") "u"
        (.success 200 (Headers.mk (some "a1") none) [])).notifications
       = [("Site changed", "u")]) :=
  ⟨rfl, by decide,
    C1_etag_diff_is_changed sampleDigest (WState.mk (some "a0") none "0") "u"
      (Headers.mk (some "a1") none) [] "a1" rfl (by decide)⟩

/-- C2: a polling fetch answered with HTTP 304 (a raised `HTTPError` of code
304) has outcome Unchanged: no body is read, no digest is computed, no
notification is sent, the state is untouched, and the loop goes on polling
with the same state. -/
theorem C2_304_unchanged (hexdigest : List Nat → String) (st : WState)
    (url : String) (rest : List FetchResult) :
    (pollStep hexdigest st url (.httpError 304)).state = st ∧
    (pollStep hexdigest st url (.httpError 304)).done = false ∧
    (pollStep hexdigest st url (.httpError 304)).notifications = [] ∧
    (pollStep hexdigest st url (.httpError 304)).digestConsulted = false ∧
    (pollStep hexdigest st url (.httpError 304)).bodyRead = false ∧
    (pollStep hexdigest st url (.httpError 304)).uncaught = false ∧
    (runPolling hexdigest url st (.httpError 304 :: rest)).endKind
      = (runPolling hexdigest url st rest).endKind ∧
    (runPolling hexdigest url st (.httpError 304 :: rest)).fetches
      = (runPolling hexdigest url st rest).fetches + 1 ∧
    (runPolling hexdigest url st (.httpError 304 :: rest)).state
      = (runPolling hexdigest url st rest).state := by
  have h := runPolling_cons_continue hexdigest url st (.httpError 304) rest rfl rfl
  refine ⟨rfl, rfl, rfl, rfl, rfl, rfl, ?_, ?_, ?_⟩ <;> rw [h] <;> rfl

/-- C3: on a polling fetch returning HTTP 200 where neither caching header
differs from the stored validators (or the headers are absent), the outcome is
decided by the digest fallback: Unchanged (no notification) when the digest of
the new body equals the stored digest, Changed with a "Site changed"
notification when they differ; and a Changed outcome ends the loop after this
single fetch, consuming nothing further. -/
theorem C3_digest_fallback (hexdigest : List Nat → String) (st : WState)
    (url : String) (hdrs : Headers) (body : List Nat) (rest : List FetchResult)
    (hEtag : hdrs.etag = none ∨ hdrs.etag = st.etag)
    (hLM : hdrs.lastModified = none ∨ hdrs.lastModified = st.last_modified) :
    (pollStep hexdigest st url (.success 200 hdrs body)).done
      = (if st.md5 = get_md5 hexdigest body then false else true) ∧
    (pollStep hexdigest st url (.success 200 hdrs body)).notifications
      = (if st.md5 = get_md5 hexdigest body then []
         else [("Site changed", url)]) ∧
    (runPolling hexdigest url st (.success 200 hdrs body :: rest)).endKind
      = (if st.md5 = get_md5 hexdigest body
         then (runPolling hexdigest url
                 (pollStep hexdigest st url (.success 200 hdrs body)).state rest).endKind
         else EndKind.changedExit) ∧
    (runPolling hexdigest url st (.success 200 hdrs body :: rest)).fetches
      = (if st.md5 = get_md5 hexdigest body
         then (runPolling hexdigest url
                 (pollStep hexdigest st url (.success 200 hdrs body)).state rest).fetches + 1
         else 1) := by
  have he : headerDiffers st.etag hdrs.etag = false := headerDiffers_eq_false hEtag
  have hl : headerDiffers st.last_modified hdrs.lastModified = false :=
    headerDiffers_eq_false hLM
  by_cases hmd : st.md5 = get_md5 hexdigest body
  · have hdone : (pollStep hexdigest st url (.success 200 hdrs body)).done = false := by
      rw [pollStep_success_200]; simp [he, hl, hmd]
    refine ⟨?_, ?_, ?_, ?_⟩
    · rw [pollStep_success_200]; simp [he, hl, hmd]
    · rw [pollStep_success_200]; simp [he, hl, hmd]
    · rw [runPolling_cons_continue hexdigest url st (.success 200 hdrs body) rest rfl hdone,
        if_pos hmd]
    · rw [runPolling_cons_continue hexdigest url st (.success 200 hdrs body) rest rfl hdone,
        if_pos hmd]
  · have hdone : (pollStep hexdigest st url (.success 200 hdrs body)).done = true := by
      rw [pollStep_success_200]; simp [he, hl, hmd]
    refine ⟨?_, ?_, ?_, ?_⟩
    · rw [pollStep_success_200]; simp [he, hl, hmd]
    · rw [pollStep_success_200]; simp [he, hl, hmd]
    · rw [runPolling_cons_done hexdigest url st (.success 200 hdrs body) rest rfl hdone,
        if_neg hmd]
    · rw [runPolling_cons_done hexdigest url st (.success 200 hdrs body) rest rfl hdone,
        if_neg hmd]

/-- Witness for C3 at a concrete input: no caching headers on either side,
stored digest `"0"`, new body `[7]` digesting to `"1"` (the digests-differ
branch), polling script empty after this fetch. -/
theorem C3_digest_fallback_witness :
    ((Headers.mk none none).etag = none
       ∨ (Headers.mk none none).etag = (WState.mk none none "0").etag) ∧
    ((Headers.mk none none).lastModified = none
       ∨ (Headers.mk none none).lastModified
           = (WState.mk none none "0").last_modified) ∧
    ((pollStep sampleDigest (WState.mk none none "0") "u"
        (.success 200 (Headers.mk none none) [7])).done
      = (if (WState.mk none none "0").md5 = get_md5 sampleDigest [7]
         then false else true) ∧
     (pollStep sampleDigest (WState.mk none none "0") "u"
        (.success 200 (Headers.mk none none) [7])).notifications
      = (if (WState.mk none none "0").md5 = get_md5 sampleDigest [7] then []
         else [("Site changed", "u")]) ∧
     (runPolling sampleDigest "u" (WState.mk none none "0")
        (.success 200 (Headers.mk none none) [7] :: [])).endKind
      = (if (WState.mk none none "0").md5 = get_md5 sampleDigest [7]
         then (runPolling sampleDigest "u"
                 (pollStep sampleDigest (WState.mk none none "0") "u"
                   (.success 200 (Headers.mk none none) [7])).state []).endKind
         else EndKind.changedExit) ∧
     (runPolling sampleDigest "u" (WState.mk none none "0")
        (.success 200 (Headers.mk none none) [7] :: [])).fetches
      = (if (WState.mk none none "0").md5 = get_md5 sampleDigest [7]
         then (runPolling sampleDigest "u"
                 (pollStep sampleDigest (WState.mk none none "0") "u"
                   (.success 200 (Headers.mk none none) [7])).state []).fetches + 1
         else 1)) :=
  ⟨Or.inl rfl, Or.inl rfl,
    C3_digest_fallback sampleDigest (WState.mk none none "0") "u"
      (Headers.mk none none) [7] [] (Or.inl rfl) (Or.inl rfl)⟩

/-- C4: the claim says a baseline fetch with a non-200 status (e.g. HTTP 500)
logs an error, notifies "exiting" and returns before any polling.  The code
at lines 61-64 indeed implements exactly that for a *returned* response
object, but `urllib` delivers an error status such as 500 by *raising*
`HTTPError`, and the baseline `urlopen` of line 60 is wrapped in no `try`, so
on a real HTTP 500 the exception escapes `watch` with no log, no notification
and no polling — the handler the claim describes is reachable only for
non-200 codes that `urlopen` returns without raising (2xx such as 204).  The
first conjunct evaluates the model at the failing input (a raised
`HTTPError(500)` at baseline); the second shows the intended handler on a
returned 204 response. -/
theorem C4_baseline_error_behavior :
    watch sampleDigest "http://e.com" (.httpError 500) [.httpError 304] =
      { notifications := [], logs := [], pollFetches := 0,
        endKind := .crashed, finalState := none } ∧
    watch sampleDigest "http://e.com"
        (.success 204 (Headers.mk none none) []) [.httpError 304] =
      { notifications := [("Got HTTP 204. Exiting.", "http://e.com")],
        logs := ["Got 204 for http://e.com. Exiting."],
        pollFetches := 0, endKind := .baselineAbort, finalState := none } := by
  constructor
  · rfl
  · decide

/-- C5 counterexample: at the concrete input of a transport-level failure on
the first polling fetch, it is false that the error is logged and that the
loop continues polling — the run ends `crashed` on fetch one with an empty
log, and the scripted second response is never fetched. -/
theorem C5_transport_counterexample :
    ¬ ((runPolling sampleDigest "u" (WState.mk none none "0")
          [.transportError, .httpError 304]).endKind ≠ EndKind.crashed ∧
       (runPolling sampleDigest "u" (WState.mk none none "0")
          [.transportError, .httpError 304]).logs ≠ []) := by
  decide

/-- C5 (amended): a transport-level failure during a polling fetch matches no
`except` clause (`except HTTPError` only, line 106), so the exception escapes:
nothing is logged, nothing is notified, and the loop terminates after that
fetch instead of retrying on the next interval. -/
theorem C5_transport_uncaught (hexdigest : List Nat → String) (st : WState)
    (url : String) (rest : List FetchResult) :
    (pollStep hexdigest st url .transportError).uncaught = true ∧
    (pollStep hexdigest st url .transportError).logs = [] ∧
    (pollStep hexdigest st url .transportError).notifications = [] ∧
    (runPolling hexdigest url st (.transportError :: rest)).endKind
      = EndKind.crashed ∧
    (runPolling hexdigest url st (.transportError :: rest)).fetches = 1 ∧
    (runPolling hexdigest url st (.transportError :: rest)).logs = [] := by
  have h := runPolling_cons_crashed hexdigest url st .transportError rest rfl
  refine ⟨rfl, rfl, rfl, ?_, ?_, ?_⟩ <;> (rw [h]; try rfl)

/-- C6 counterexample: the claim that after a fresh 200 polling fetch the
full set of observed validators (ETag, Last-Modified, digest) becomes the
stored baseline is false at this input: prior ETag `some "a"`, 200 response
with no headers and an identical body (outcome Unchanged) — the stored state
keeps ETag `some "a"` instead of the observed absent ETag. -/
theorem C6_validators_counterexample :
    ¬ ((pollStep sampleDigest (WState.mk (some "a") none "0") "u"
          (.success 200 (Headers.mk none none) [])).state
        = WState.mk none none (get_md5 sampleDigest [])) := by
  decide

/-- C6 (amended): after a polling fetch returning HTTP 200, only the
Last-Modified validator is replaced by the observed header value (`none` when
the header is absent, line 105); the stored ETag and digest keep their
baseline values whatever the response carries, even when the outcome is
Unchanged. -/
theorem C6_only_last_modified_updated (hexdigest : List Nat → String)
    (st : WState) (url : String) (hdrs : Headers) (body : List Nat) :
    (pollStep hexdigest st url (.success 200 hdrs body)).state
      = WState.mk st.etag hdrs.lastModified st.md5 := rfl

/-- C7 counterexample: the claim that on an Unchanged polling fetch the
stored Last-Modified survives when the header is absent is false at this
input: stored Last-Modified `some "X"`, 200 response with no headers and an
identical body — the outcome is Unchanged (`done = false`) yet the stored
Last-Modified is clobbered (line 105 reads the absent header as `None`). -/
theorem C7_last_modified_counterexample :
    (pollStep sampleDigest (WState.mk none (some "X") "0") "u"
        (.success 200 (Headers.mk none none) [])).done = false ∧
    (pollStep sampleDigest (WState.mk none (some "X") "0") "u"
        (.success 200 (Headers.mk none none) [])).state.last_modified
      ≠ some "X" := by
  decide

/-- C7 (amended): on a polling fetch answered with HTTP 200 the stored
Last-Modified is unconditionally set to the response's Last-Modified header
value, which is `None` when the header is absent; only on a 304 outcome is
the previous stored value retained (the 304 handler touches no state). -/
theorem C7_last_modified_overwritten (hexdigest : List Nat → String)
    (st : WState) (url : String) (hdrs : Headers) (body : List Nat) :
    (pollStep hexdigest st url (.success 200 hdrs body)).state.last_modified
      = hdrs.lastModified ∧
    (pollStep hexdigest st url (.httpError 304)).state = st :=
  ⟨rfl, rfl⟩

/-- C8: a baseline fetch returning a 200 response records as validators the
ETag header when present, the Last-Modified header when present, and always a
content digest; the digest is computed over the full body (the chunked read
loop accumulates the entire stream). -/
theorem C8_baseline_validators (hexdigest : List Nat → String) (url : String)
    (hdrs : Headers) (body : List Nat) :
    baseline hexdigest url 200 hdrs body
      = .proceed (WState.mk hdrs.etag hdrs.lastModified (get_md5 hexdigest body)) ∧
    get_md5 hexdigest body = hexdigest body :=
  ⟨rfl, get_md5_eq hexdigest body⟩

/-- C9: when the external notification command exits with a non-zero return
code, `run` logs an error and returns a synthetic error string; the model is
a total function, so no exception can propagate into the calling watcher. -/
theorem C9_run_swallows_failure (cmd : List String) (r : ProcResult)
    (h : r.returncode ≠ 0) :
    (run cmd r).output
      = "Error " ++ toString r.returncode ++ " trying to run("
          ++ cmdListRepr cmd ++ ")" ∧
    (run cmd r).logs
      = ["subprocess.run(" ++ cmdListRepr cmd ++ ") got "
           ++ toString r.returncode ++ ".",
         "subprocess.run(" ++ cmdListRepr cmd ++ ") failed with code "
           ++ toString r.returncode ++ "."] := by
  simp [run, h]

/-- Witness for C9 at a concrete input: return code 1. -/
theorem C9_run_swallows_failure_witness :
    (ProcResult.mk 1 "out").returncode ≠ 0 ∧
    ((run ["echo", "hi"] (ProcResult.mk 1 "out")).output
      = "Error " ++ toString (ProcResult.mk 1 "out").returncode
          ++ " trying to run(" ++ cmdListRepr ["echo", "hi"] ++ ")" ∧
     (run ["echo", "hi"] (ProcResult.mk 1 "out")).logs
      = ["subprocess.run(" ++ cmdListRepr ["echo", "hi"] ++ ") got "
           ++ toString (ProcResult.mk 1 "out").returncode ++ ".",
         "subprocess.run(" ++ cmdListRepr ["echo", "hi"] ++ ") failed with code "
           ++ toString (ProcResult.mk 1 "out").returncode ++ "."]) :=
  ⟨by decide, C9_run_swallows_failure ["echo", "hi"] (ProcResult.mk 1 "out") (by decide)⟩

/-- C10: the executed argument vector substitutes, in each template token,
every occurrence of the substring `MSG` by the message and then every
occurrence of the substring `URL` by the url; because the substitution is
substring-based and ordered, an occurrence of `URL` inside the message text
itself is also replaced by the url, as the second and third conjuncts show
for the standard template token `MSG`. -/
theorem C10_notify_substitution :
    (∀ (notification : List String) (msg url : String),
        notifyArgv notification msg url
          = notification.map (fun i => pyReplace (pyReplace i "MSG" msg) "URL" url)) ∧
    (∀ msg url : String,
        notifyArgv ["echo", "MSG"] msg url = ["echo", pyReplace msg "URL" url]) ∧
    notifyArgv ["echo", "MSG"] "breaking news at URL" "http://e.com"
      = ["echo", "breaking news at http://e.com"] := by
  refine ⟨fun n m u => rfl, fun m u => ?_, by decide⟩
  show [pyReplace (pyReplace "echo" "MSG" m) "URL" u,
        pyReplace (pyReplace "MSG" "MSG" m) "URL" u]
      = ["echo", pyReplace m "URL" u]
  rw [pyReplace_whole_token]
  rfl

end WatchUrl
